import Mathlib

/-!
Shallow embedding of the Transaction Statistics Cache of `src/server/index.ts`
(the `ghostx-server` repository): the paginated upstream signature fetcher,
the 24-hour-window aggregation, the single-slot stats cache, the startup
sequence, and the hourly interval tick.

Machine integers: JavaScript numbers that hold counts are modelled as `Nat`;
`blockTime` values (Unix seconds coming from JSON, possibly `null` or absent)
are modelled as `Option Int`; `Date.now()` is a `Nat` (milliseconds).
An upstream page fetch either throws (transport or JSON-parse failure),
or yields a response whose `result` field may be missing.
-/

/-- One record returned by `getSignaturesForAddress`
(`interface SignatureResponse`, src/server/index.ts lines 37-40).
The upstream may omit `blockTime` (the source filters on its truthiness),
so it is modelled as `Option Int`. -/
structure SignatureResponse where
  signature : String
  blockTime : Option Int
deriving DecidableEq

/-- The cached aggregate (`interface TxStats`, src/server/index.ts lines 31-35). -/
structure TxStats where
  totalTx : Nat
  last24hTx : Nat
  lastUpdated : Nat
deriving DecidableEq

/-- The initial value of the module-level mutable cache
(`let cachedStats`, src/server/index.ts lines 48-52). -/
def cachedStats : TxStats :=
  { totalTx := 0, last24hTx := 0, lastUpdated := 0 }

/-- The read endpoint `GET /api/tx-stats` (src/server/index.ts lines 182-184):
it serves the current cache value verbatim and has no failure path. -/
def readTxStats (cache : TxStats) : TxStats :=
  cache

/-- One upstream request body, as built on src/server/index.ts lines 95-100:
`params` is `[PDA_ADDRESS, \x7b limit: 100, before? \x7d]`. -/
structure UpstreamRequest where
  limit : Nat
  before : Option String
deriving DecidableEq

/-- What one scripted upstream interaction yields to the loop body:
`Except.error ()` models `fetch` or `sigRes.json()` throwing;
`Except.ok none` models a response without a usable `result` field
(`sigData.result || []` on line 103); `Except.ok (some batch)` is a
well-formed page. -/
abbrev PageResult := Except Unit (Option (List SignatureResponse))

/-- Outcome of driving the pagination loop of `fetchTxStats`
(src/server/index.ts lines 91-110) against a script of upstream responses:
`ok calls requests records` means the loop exited normally having issued
`calls` requests (recorded in order, with the `before` cursor each carried);
`failed calls requests` means the fetch of the last recorded request threw;
`outOfScript` means the loop wanted a further page beyond the script
(the model gives no verdict there). -/
inductive FetchOutcome where
  | ok (calls : Nat) (requests : List UpstreamRequest) (records : List SignatureResponse)
  | failed (calls : Nat) (requests : List UpstreamRequest)
  | outOfScript
deriving DecidableEq

/-- Number of upstream calls the loop issued. -/
def FetchOutcome.callCount : FetchOutcome → Nat
  | .ok n _ _ => n
  | .failed n _ => n
  | .outOfScript => 0

/-- The records accumulated by a normally terminated loop. -/
def FetchOutcome.fetched : FetchOutcome → List SignatureResponse
  | .ok _ _ recs => recs
  | .failed _ _ => []
  | .outOfScript => []

/-- The cursor update of src/server/index.ts line 106:
`before = batch[batch.length - 1].signature`. -/
def lastSignature (batch : List SignatureResponse) : Option String :=
  batch.getLast?.map (fun s => s.signature)

/-- The `while (keepFetching)` loop of `fetchTxStats`
(src/server/index.ts lines 91-110), one script entry consumed per iteration:
fetch a page with `limit` 100 and the current `before` cursor, append
`sigData.result || []` to the accumulator, and continue exactly when the
batch has exactly 100 records, moving the cursor to the last signature of
the batch. -/
def runFetch : List PageResult → Option String → FetchOutcome
  | [], _ => .outOfScript
  | Except.error _ :: _, before => .failed 1 [⟨100, before⟩]
  | Except.ok resField :: rest, before =>
    let batch := resField.getD []
    if batch.length = 100 then
      match runFetch rest (lastSignature batch) with
      | .ok n reqs recs => .ok (n + 1) (⟨100, before⟩ :: reqs) (batch ++ recs)
      | .failed n reqs => .failed (n + 1) (⟨100, before⟩ :: reqs)
      | .outOfScript => .outOfScript
    else
      .ok 1 [⟨100, before⟩] batch

/-- `startOf24h` (src/server/index.ts lines 112-113):
`Math.floor(Date.now() / 1000) - 86400`, with `now` in milliseconds.
The result is an `Int` because it is negative when `now < 86400000`. -/
def startOf24h (now : Nat) : Int :=
  ((now / 1000 : Nat) : Int) - 86400

/-- The filter of src/server/index.ts line 114:
`s.blockTime && s.blockTime >= startOf24h`. JavaScript truthiness makes an
absent, `null`, or zero `blockTime` fail the first conjunct. -/
def inWindow (now : Nat) (s : SignatureResponse) : Bool :=
  match s.blockTime with
  | some t => decide (t ≠ 0) && decide (startOf24h now ≤ t)
  | none => false

/-- The aggregation of src/server/index.ts lines 112-120, as a pure function
of the fetched records and the clock (the contract the spec calls
`aggregate(records, now)`). -/
def aggregate (records : List SignatureResponse) (now : Nat) : TxStats :=
  { totalTx := records.length
    last24hTx := (records.filter (fun s => inWindow now s)).length
    lastUpdated := now }

/-- `fetchTxStats` (src/server/index.ts lines 86-121) as a function from the
scripted upstream responses and the clock to either the snapshot it assigns
to the cache, or an error when some page fetch threw before the assignment
(the single cache assignment sits after the whole loop, lines 116-120). -/
def fetchTxStatsE (script : List PageResult) (now : Nat) : Except Unit TxStats :=
  match runFetch script none with
  | .ok _ _ recs => Except.ok (aggregate recs now)
  | .failed _ _ => Except.error ()
  | .outOfScript => Except.error ()

/-- The effect of one `fetchTxStats` invocation on the cache cell: on normal
completion the cache is replaced wholesale by the new snapshot; when the
cycle throws (or never terminates) the assignment on lines 116-120 is never
reached and the cache keeps its previous value. -/
def cycleResult (script : List PageResult) (now : Nat) (cache : TxStats) : TxStats :=
  match runFetch script none with
  | .ok _ _ recs => aggregate recs now
  | .failed _ _ => cache
  | .outOfScript => cache

/-- `startServer` (src/server/index.ts lines 192-203) restricted to the stats
core: it runs `await fetchTxStats()` with no surrounding try/catch; on
success it goes on to install the interval and call `app.listen`, so
`Except.ok s` means the server is listening with the cache holding `s`;
on failure the `await` throws out of `startServer` and `app.listen` is
never executed, which `Except.error ()` records. -/
def startServer (initScript : List PageResult) (now : Nat) : Except Unit TxStats :=
  fetchTxStatsE initScript now

/-- Every value the cache cell can ever hold: its initial zero snapshot, and
the result of any refresh cycle run from a reachable value. -/
inductive CacheReach : TxStats → Prop
  | init : CacheReach cachedStats
  | step (script : List PageResult) (now : Nat) {s : TxStats} :
      CacheReach s → CacheReach (cycleResult script now s)

/-- Cache values reachable from `s0` through later refresh cycles, where `t0`
is the startup clock and every later cycle runs at a clock `now` with
`t0 ≤ now` (wall-clock time does not run backwards). -/
inductive ReachAfter (t0 : Nat) (s0 : TxStats) : TxStats → Prop
  | refl : ReachAfter t0 s0 s0
  | step {s : TxStats} (script : List PageResult) (now : Nat) :
      ReachAfter t0 s0 s → t0 ≤ now → ReachAfter t0 s0 (cycleResult script now s)

/-- Scheduler state: the scripts of the `fetchTxStats` invocations currently
in flight, and the cache. -/
structure SchedulerState where
  active : List (List PageResult)
  cache : TxStats

/-- What `setInterval(fetchTxStats, 60 * 60 * 1000)` (src/server/index.ts
line 198) does on a timer tick: it invokes `fetchTxStats` directly — the
program has no in-flight flag, so a new cycle starts unconditionally;
`script` is the page sequence the new cycle will receive from upstream. -/
def onIntervalTick (st : SchedulerState) (script : List PageResult) : SchedulerState :=
  { st with active := script :: st.active }

/-- Following the words of the spec (section 5): a timer tick that fires while
a cycle is already active skips starting a new one. Present only to compare
against `onIntervalTick`, the tick the code actually installs. -/
def specGuardedTick (st : SchedulerState) (script : List PageResult) : SchedulerState :=
  if st.active.isEmpty then { st with active := [script] } else st

/-- The count claimed by the spec for `last24hTx`: records whose `blockTime`
is present and at least the window start — presence alone, with no
truthiness test. Present only to compare against `aggregate`. -/
def presentInWindowCount (records : List SignatureResponse) (now : Nat) : Nat :=
  (records.filter (fun s =>
    match s.blockTime with
    | some t => decide (startOf24h now ≤ t)
    | none => false)).length

/-- The `before` cursor the loop holds after consuming the given full pages,
starting from cursor `c`. -/
def lastCursor : List (List SignatureResponse) → Option String → Option String
  | [], c => c
  | p :: ps, _ => lastCursor ps (lastSignature p)

/-- The requests issued while consuming the given pages as full pages,
starting from cursor `c`: each carries limit 100 and the cursor set to the
last signature of the page before it. -/
def requestsFor : List (List SignatureResponse) → Option String → List UpstreamRequest
  | [], _ => []
  | p :: ps, c => ⟨100, c⟩ :: requestsFor ps (lastSignature p)

/-- Concrete 100-record page used by the pagination scenarios. -/
def page100 : List SignatureResponse :=
  List.replicate 100 ⟨"s", none⟩

/-- Upstream script with pages of sizes 100, 100, 37. -/
def scenarioA : List PageResult :=
  [Except.ok (some page100), Except.ok (some page100),
    Except.ok (some (List.replicate 37 ⟨"t", none⟩))]

/-- Upstream script with pages of sizes 100, 100, 100, 0. -/
def scenarioB : List PageResult :=
  [Except.ok (some page100), Except.ok (some page100), Except.ok (some page100),
    Except.ok (some [])]

/-- Driving the loop through a block of full pages consumes them all, one
request each, accumulating their records, and continues with the cursor left
at the last signature of the last full page. -/
theorem runFetch_fullPages (fulls : List (List SignatureResponse)) :
    ∀ (c : Option String), (∀ p ∈ fulls, p.length = 100) → ∀ (tail : List PageResult),
    runFetch (fulls.map (fun p => Except.ok (some p)) ++ tail) c =
      match runFetch tail (lastCursor fulls c) with
      | .ok n reqs recs =>
          .ok (fulls.length + n) (requestsFor fulls c ++ reqs) (fulls.flatten ++ recs)
      | .failed n reqs => .failed (fulls.length + n) (requestsFor fulls c ++ reqs)
      | .outOfScript => .outOfScript := by
  induction fulls with
  | nil =>
    intro c h tail
    simp only [List.map_nil, List.nil_append, lastCursor, requestsFor, List.length_nil,
      List.flatten, Nat.zero_add]
    cases hr : runFetch tail c <;> simp
  | cons p ps ih =>
    intro c h tail
    have hp : p.length = 100 := h p (List.mem_cons_self p ps)
    have hps : ∀ q ∈ ps, q.length = 100 := fun q hq => h q (List.mem_cons_of_mem p hq)
    simp only [List.map_cons, List.cons_append, runFetch, Option.getD_some, hp, if_pos]
    rw [List.append_eq, ih (lastSignature p) hps tail]
    simp only [lastCursor, requestsFor, List.flatten_cons, List.length_cons]
    cases hr : runFetch tail (lastCursor ps (lastSignature p)) <;>
      simp [List.append_assoc] <;> omega

/-- C2: the fetcher requests pages of size 100 with a `before` cursor set to
the last signature of the previous page, continues exactly while the most
recent page has exactly 100 records, and stops as soon as a page has fewer
than 100; on pages of sizes [100, 100, 37] it issues exactly 3 calls and
returns 237 records, and on [100, 100, 100, 0] it issues 4 calls and
returns 300 records. -/
theorem fetch_pagination :
    (∀ (fulls : List (List SignatureResponse)) (last : List SignatureResponse)
        (rest : List PageResult) (c : Option String),
      (∀ p ∈ fulls, p.length = 100) → last.length < 100 →
      runFetch (fulls.map (fun p => Except.ok (some p)) ++ Except.ok (some last) :: rest) c =
        FetchOutcome.ok (fulls.length + 1)
          (requestsFor fulls c ++ [⟨100, lastCursor fulls c⟩])
          (fulls.flatten ++ last)) ∧
    (runFetch scenarioA none).callCount = 3 ∧
    ((runFetch scenarioA none).fetched).length = 237 ∧
    (runFetch scenarioB none).callCount = 4 ∧
    ((runFetch scenarioB none).fetched).length = 300 := by
  have general : ∀ (fulls : List (List SignatureResponse)) (last : List SignatureResponse)
      (rest : List PageResult) (c : Option String),
      (∀ p ∈ fulls, p.length = 100) → last.length < 100 →
      runFetch (fulls.map (fun p => Except.ok (some p)) ++ Except.ok (some last) :: rest) c =
        FetchOutcome.ok (fulls.length + 1)
          (requestsFor fulls c ++ [⟨100, lastCursor fulls c⟩])
          (fulls.flatten ++ last) := by
    intro fulls last rest c hf hl
    rw [runFetch_fullPages fulls c hf (Except.ok (some last) :: rest)]
    have hne : last.length ≠ 100 := Nat.ne_of_lt hl
    simp [runFetch, hne]
  have hA := general [page100, page100] (List.replicate 37 ⟨"t", none⟩) [] none
    (by simp [page100]) (by simp)
  have hB := general [page100, page100, page100] [] [] none (by simp [page100]) (by simp)
  have eA : scenarioA =
      [page100, page100].map (fun p => Except.ok (some p)) ++
        Except.ok (some (List.replicate 37 ⟨"t", none⟩)) :: [] := rfl
  have eB : scenarioB =
      [page100, page100, page100].map (fun p => Except.ok (some p)) ++
        Except.ok (some ([] : List SignatureResponse)) :: [] := rfl
  have hlen : page100.length = 100 := by simp [page100]
  refine ⟨general, ?_, ?_, ?_, ?_⟩
  · rw [eA, hA]; rfl
  · rw [eA, hA]
    simp [FetchOutcome.fetched, hlen]
  · rw [eB, hB]; rfl
  · rw [eB, hB]
    simp [FetchOutcome.fetched, hlen]

/-- Witness for C2: one full page then an empty page gives 2 calls, the
second carrying the last signature of the first page as its cursor. -/
theorem fetch_pagination_witness :
    runFetch [Except.ok (some page100), Except.ok (some [])] none =
      FetchOutcome.ok 2 (requestsFor [page100] none ++ [⟨100, lastCursor [page100] none⟩])
        ([page100].flatten ++ []) :=
  fetch_pagination.1 [page100] [] [] none (by simp [page100]) (by simp)

/-- C8: an upstream response with a missing or absent `result` field is
treated as an empty page, not as an error: that page contributes zero
records, the pagination loop terminates there, and the cycle completes
successfully with the (possibly prematurely truncated) records gathered
so far. -/
theorem missing_result_empty_page :
    ∀ (fulls : List (List SignatureResponse)) (rest : List PageResult) (now : Nat),
      (∀ p ∈ fulls, p.length = 100) →
      runFetch (fulls.map (fun p => Except.ok (some p)) ++ Except.ok none :: rest) none =
        FetchOutcome.ok (fulls.length + 1)
          (requestsFor fulls none ++ [⟨100, lastCursor fulls none⟩]) fulls.flatten ∧
      fetchTxStatsE (fulls.map (fun p => Except.ok (some p)) ++ Except.ok none :: rest) now =
        Except.ok (aggregate fulls.flatten now) := by
  intro fulls rest now hf
  have h1 : runFetch (fulls.map (fun p => Except.ok (some p)) ++ Except.ok none :: rest) none =
      FetchOutcome.ok (fulls.length + 1)
        (requestsFor fulls none ++ [⟨100, lastCursor fulls none⟩]) fulls.flatten := by
    rw [runFetch_fullPages fulls none hf (Except.ok none :: rest)]
    simp [runFetch]
  exact ⟨h1, by simp [fetchTxStatsE, h1]⟩

/-- Witness for C8: a lone missing-result page yields one call, zero records,
and a successful cycle. -/
theorem missing_result_empty_page_witness :
    runFetch [Except.ok none] none = FetchOutcome.ok 1 [⟨100, none⟩] [] ∧
    fetchTxStatsE [Except.ok none] 5 = Except.ok (aggregate [] 5) := by
  have h := missing_result_empty_page [] [] 5 (by simp)
  simpa [requestsFor, lastCursor] using h

/-- C3: if any page fetch in a refresh cycle throws, the cached snapshot is
left exactly as it was before the cycle began — totalTx, last24hTx and
lastUpdated all unchanged — and a subsequent read returns the pre-failure
snapshot. -/
theorem failed_cycle_preserves_cache :
    ∀ (script : List PageResult) (now : Nat) (cache : TxStats)
      (n : Nat) (reqs : List UpstreamRequest),
      runFetch script none = FetchOutcome.failed n reqs →
      cycleResult script now cache = cache ∧
      (cycleResult script now cache).totalTx = cache.totalTx ∧
      (cycleResult script now cache).last24hTx = cache.last24hTx ∧
      (cycleResult script now cache).lastUpdated = cache.lastUpdated ∧
      readTxStats (cycleResult script now cache) = readTxStats cache := by
  intro script now cache n reqs h
  have h1 : cycleResult script now cache = cache := by simp [cycleResult, h]
  exact ⟨h1, by rw [h1], by rw [h1], by rw [h1], by rw [h1]⟩

/-- Witness for C3: a cycle whose second page fetch throws leaves a concrete
pre-existing snapshot untouched. -/
theorem failed_cycle_preserves_cache_witness :
    cycleResult [Except.ok (some page100), Except.error ()] 789 ⟨240, 12, 123456⟩ =
      ⟨240, 12, 123456⟩ := by
  have h : runFetch [Except.ok (some page100), Except.error ()] none =
      FetchOutcome.failed 2 [⟨100, none⟩, ⟨100, lastSignature page100⟩] := by
    have h0 := runFetch_fullPages [page100] none (by simp [page100]) [Except.error ()]
    simpa [runFetch, lastCursor, requestsFor] using h0
  exact (failed_cycle_preserves_cache _ 789 _ 2 _ h).1

/-- C4: every snapshot the cache ever holds — the zero-valued initial one and
every snapshot produced by a refresh cycle — satisfies
last24hTx ≤ totalTx. -/
theorem cache_invariant :
    ∀ s : TxStats, CacheReach s → s.last24hTx ≤ s.totalTx := by
  intro s h
  induction h with
  | init => exact Nat.le_refl 0
  | step script now hs ih =>
    show (cycleResult _ _ _).last24hTx ≤ (cycleResult _ _ _).totalTx
    unfold cycleResult
    cases hr : runFetch script none
    · exact List.length_filter_le _ _
    · exact ih
    · exact ih

/-- Witness for C4: the invariant at a concrete snapshot produced by one
successful cycle from the initial cache. -/
theorem cache_invariant_witness :
    (cycleResult [Except.ok (some [⟨"a", some 5⟩])] 99 cachedStats).last24hTx ≤
      (cycleResult [Except.ok (some [⟨"a", some 5⟩])] 99 cachedStats).totalTx :=
  cache_invariant _ (CacheReach.step _ _ CacheReach.init)

/-- C1 fails as stated: at now = 0 a record with blockTime present and equal
to 0 passes the claimed window test (0 is at least floor(0/1000) − 86400 =
−86400), yet the code counts 0 records in last24hTx, because line 114 tests
blockTime for truthiness, not presence. -/
theorem aggregate_presence_count_cex :
    (aggregate [⟨"a", some 0⟩] 0).last24hTx = 0 ∧
    presentInWindowCount [⟨"a", some 0⟩] 0 = 1 ∧
    (aggregate [⟨"a", some 0⟩] 0).last24hTx ≠ presentInWindowCount [⟨"a", some 0⟩] 0 := by
  decide

/-- C1 (amended): for every record list and clock, one aggregation computes
totalTx = number of fetched records, lastUpdated = now (milliseconds), and
last24hTx = number of records whose blockTime is present, nonzero, and at
least floor(now/1000) − 86400; in particular a record with no blockTime, or
with blockTime 0, is counted in totalTx but never in last24hTx. -/
theorem aggregate_spec :
    ∀ (records : List SignatureResponse) (now : Nat),
      (aggregate records now).totalTx = records.length ∧
      (aggregate records now).lastUpdated = now ∧
      (aggregate records now).last24hTx = records.countP (fun s => inWindow now s) ∧
      (∀ s : SignatureResponse, inWindow now s = true ↔
        ∃ t : Int, s.blockTime = some t ∧ t ≠ 0 ∧ startOf24h now ≤ t) ∧
      (∀ s : SignatureResponse, s.blockTime = none ∨ s.blockTime = some 0 →
        inWindow now s = false) := by
  intro records now
  refine ⟨rfl, rfl, ?_, ?_, ?_⟩
  · simp [aggregate, List.countP_eq_length_filter]
  · intro s
    cases hb : s.blockTime with
    | none => simp [inWindow, hb]
    | some t => simp [inWindow, hb]
  · rintro s (h | h) <;> simp [inWindow, h]

/-- Witness for C1 (amended) at a concrete list and clock. -/
theorem aggregate_spec_witness :
    (aggregate [⟨"a", none⟩, ⟨"b", some 5⟩] 2000).totalTx = 2 ∧
    (aggregate [⟨"a", none⟩, ⟨"b", some 5⟩] 2000).lastUpdated = 2000 := by
  have h := aggregate_spec [⟨"a", none⟩, ⟨"b", some 5⟩] 2000
  exact ⟨h.1, h.2.1⟩

/-- C9 fails as stated: at now = 86400000 ms the window start is exactly 0,
and a record with blockTime equal to that boundary value is excluded from
last24hTx by the truthiness filter, not included. -/
theorem window_boundary_cex :
    startOf24h 86400000 = 0 ∧
    (aggregate [⟨"a", some (startOf24h 86400000)⟩] 86400000).last24hTx ≠ 1 := by
  decide

/-- C9 (amended): whenever the window start floor(now/1000) − 86400 is
nonzero, a record with blockTime exactly at the window start is counted in
last24hTx; a record with blockTime one below the window start is never
counted; and when the window start is exactly 0 the boundary record is
excluded by the truthiness filter. -/
theorem window_boundary :
    ∀ (now : Nat) (sig : String),
      (startOf24h now ≠ 0 →
        (aggregate [⟨sig, some (startOf24h now)⟩] now).last24hTx = 1) ∧
      (aggregate [⟨sig, some (startOf24h now - 1)⟩] now).last24hTx = 0 ∧
      (startOf24h now = 0 →
        (aggregate [⟨sig, some (startOf24h now)⟩] now).last24hTx = 0) := by
  intro now sig
  refine ⟨?_, ?_, ?_⟩
  · intro h
    have hw : inWindow now ⟨sig, some (startOf24h now)⟩ = true := by
      simp [inWindow, h]
    simp [aggregate, hw]
  · have hw : inWindow now ⟨sig, some (startOf24h now - 1)⟩ = false := by
      simp [inWindow]
    simp [aggregate, hw]
  · intro h
    have hw : inWindow now ⟨sig, some (startOf24h now)⟩ = false := by
      simp [inWindow, h]
    simp [aggregate, hw]

/-- Witness for C9 (amended) at a concrete clock with nonzero window start. -/
theorem window_boundary_witness :
    (aggregate [⟨"b", some (startOf24h 1000000000000)⟩] 1000000000000).last24hTx = 1 ∧
    (aggregate [⟨"b", some (startOf24h 1000000000000 - 1)⟩] 1000000000000).last24hTx = 0 :=
  ⟨(window_boundary 1000000000000 "b").1 (by decide),
    (window_boundary 1000000000000 "b").2.1⟩

/-- C10: a record whose blockTime is present but equal to 0 is counted in
totalTx yet never counted in last24hTx — for every clock value, including
those where 0 is at least floor(now/1000) − 86400 — because line 114 tests
blockTime for truthiness rather than presence. -/
theorem zero_blockTime_excluded :
    ∀ (now : Nat) (sig : String) (rest : List SignatureResponse),
      (aggregate (⟨sig, some 0⟩ :: rest) now).totalTx = rest.length + 1 ∧
      (aggregate (⟨sig, some 0⟩ :: rest) now).last24hTx =
        (aggregate rest now).last24hTx ∧
      inWindow now ⟨sig, some 0⟩ = false := by
  intro now sig rest
  have hw : inWindow now ⟨sig, some 0⟩ = false := by simp [inWindow]
  refine ⟨by simp [aggregate], ?_, hw⟩
  simp [aggregate, hw]

/-- Witness for C10 at now = 0, where 0 is at least the window start. -/
theorem zero_blockTime_excluded_witness :
    (0 : Int) ≥ startOf24h 0 ∧
    (aggregate [⟨"a", some 0⟩] 0).totalTx = 1 ∧
    (aggregate [⟨"a", some 0⟩] 0).last24hTx = (aggregate [] 0).last24hTx :=
  ⟨by decide, (zero_blockTime_excluded 0 "a" []).1, (zero_blockTime_excluded 0 "a" []).2.1⟩

/-- C5 fails as stated: with one cycle already in flight, the tick the code
installs (setInterval invoking fetchTxStats directly) starts a second cycle
instead of skipping — two cycles end up in flight — whereas the guarded tick
the spec describes leaves the state untouched. -/
theorem interval_tick_no_guard_cex :
    (onIntervalTick ⟨[[]], cachedStats⟩ []).active.length = 2 ∧
    specGuardedTick ⟨[[]], cachedStats⟩ [] = ⟨[[]], cachedStats⟩ ∧
    onIntervalTick ⟨[[]], cachedStats⟩ [] ≠ specGuardedTick ⟨[[]], cachedStats⟩ [] := by
  refine ⟨rfl, rfl, ?_⟩
  intro h
  have hl := congrArg (fun st => st.active.length) h
  simp [onIntervalTick, specGuardedTick] at hl

/-- C5 (amended): the code does not serialize refresh cycles — the interval
callback is fetchTxStats itself, with no in-flight guard anywhere in the
program, so a timer tick that fires while a previous cycle is still active
starts a second concurrent cycle rather than skipping. -/
theorem interval_tick_no_guard :
    ∀ (st : SchedulerState) (script : List PageResult),
      st.active ≠ [] →
      (onIntervalTick st script).active.length = st.active.length + 1 ∧
      2 ≤ (onIntervalTick st script).active.length ∧
      onIntervalTick st script ≠ st := by
  intro st script h
  refine ⟨rfl, ?_, ?_⟩
  · have hpos : 0 < st.active.length := List.length_pos.mpr h
    simp only [onIntervalTick, List.length_cons]
    omega
  · intro he
    have hl := congrArg (fun x => x.active.length) he
    simp [onIntervalTick] at hl

/-- Witness for C5 (amended): a tick firing with one concrete cycle active
leaves two cycles in flight. -/
theorem interval_tick_no_guard_witness :
    (onIntervalTick ⟨[[Except.error ()]], cachedStats⟩ []).active.length = 2 ∧
    onIntervalTick ⟨[[Except.error ()]], cachedStats⟩ [] ≠ ⟨[[Except.error ()]], cachedStats⟩ := by
  have h := interval_tick_no_guard ⟨[[Except.error ()]], cachedStats⟩ [] (by simp)
  exact ⟨h.1, h.2.2⟩

/-- C6 fails as stated: an upstream failure during the initial refresh cycle
is not absorbed — startServer installs no handler, the rejection propagates,
and app.listen is never reached, so the process does not keep serving. -/
theorem startServer_initial_failure_cex :
    startServer [Except.error ()] 1000 = Except.error () :=
  rfl

/-- C6 (amended): a page-fetch failure in a refresh cycle is never surfaced
to HTTP callers of the read endpoint — after a failed non-initial cycle the
read endpoint still serves the previous snapshot — but no handler in the
program absorbs the failure: the same failure during the initial cycle
propagates out of startServer uncaught and the HTTP server never begins
accepting read traffic. -/
theorem failure_not_absorbed :
    ∀ (script : List PageResult) (now : Nat) (n : Nat) (reqs : List UpstreamRequest),
      runFetch script none = FetchOutcome.failed n reqs →
      startServer script now = Except.error () ∧
      ∀ cache : TxStats, readTxStats (cycleResult script now cache) = readTxStats cache := by
  intro script now n reqs h
  constructor
  · simp [startServer, fetchTxStatsE, h]
  · intro cache
    simp [readTxStats, cycleResult, h]

/-- Witness for C6 (amended) at a concrete failing script and snapshot. -/
theorem failure_not_absorbed_witness :
    startServer [Except.error ()] 7 = Except.error () ∧
    readTxStats (cycleResult [Except.error ()] 7 ⟨9, 4, 3⟩) = readTxStats ⟨9, 4, 3⟩ := by
  have h := failure_not_absorbed [Except.error ()] 7 1 [⟨100, none⟩] rfl
  exact ⟨h.1, h.2 ⟨9, 4, 3⟩⟩

/-- A refresh cycle either stamps lastUpdated with its own clock or leaves
the cache value untouched. -/
theorem cycleResult_lastUpdated (script : List PageResult) (now : Nat) (s : TxStats) :
    (cycleResult script now s).lastUpdated = now ∨ cycleResult script now s = s := by
  unfold cycleResult
  cases runFetch script none
  · exact Or.inl rfl
  · exact Or.inr rfl
  · exact Or.inr rfl

/-- C7: on process start one full refresh cycle runs and completes before the
HTTP server begins accepting read traffic: if the initial fetch succeeds (at
a positive clock), the cache at listen time is exactly the aggregate of the
records fetched by that cycle, and no cache value reachable afterwards —
hence no read — is the zero-valued placeholder snapshot. -/
theorem initial_cycle_before_listen :
    ∀ (initScript : List PageResult) (t0 : Nat) (s0 : TxStats),
      startServer initScript t0 = Except.ok s0 → 0 < t0 →
      (∃ n reqs recs, runFetch initScript none = FetchOutcome.ok n reqs recs ∧
        s0 = aggregate recs t0) ∧
      ∀ s : TxStats, ReachAfter t0 s0 s → readTxStats s ≠ cachedStats := by
  intro initScript t0 s0 hok ht
  have hfetch : ∃ n reqs recs, runFetch initScript none = FetchOutcome.ok n reqs recs ∧
      s0 = aggregate recs t0 := by
    unfold startServer fetchTxStatsE at hok
    cases hr : runFetch initScript none with
    | ok n reqs recs =>
      rw [hr] at hok
      simp only [Except.ok.injEq] at hok
      exact ⟨n, reqs, recs, rfl, hok.symm⟩
    | failed n reqs =>
      rw [hr] at hok
      simp at hok
    | outOfScript =>
      rw [hr] at hok
      simp at hok
  refine ⟨hfetch, ?_⟩
  have hlu : s0.lastUpdated = t0 := by
    obtain ⟨n, reqs, recs, hr, hs⟩ := hfetch
    rw [hs]
    rfl
  intro s hreach
  have hpos : 0 < s.lastUpdated := by
    induction hreach with
    | refl => rw [hlu]; exact ht
    | step script now hprev hle ih =>
      rcases cycleResult_lastUpdated script now _ with h | h
      · rw [h]; omega
      · rw [h]; exact ih
  intro he
  have hs : s = cachedStats := he
  rw [hs] at hpos
  exact absurd hpos (by decide)

/-- Witness for C7: the concrete post-startup snapshot after a successful
one-page initial fetch at clock 1000 is never the placeholder. -/
theorem initial_cycle_before_listen_witness :
    readTxStats ⟨0, 0, 1000⟩ ≠ cachedStats :=
  (initial_cycle_before_listen [Except.ok (some [])] 1000 ⟨0, 0, 1000⟩ rfl (by decide)).2
    ⟨0, 0, 1000⟩ ReachAfter.refl
